import Mathlib

/-!
Verification development for the stellar-insights real-time distribution layer
(`src/backend/src/websocket.rs` and
`src/backend/src/services/realtime_broadcaster.rs`).

Shallow embedding conventions:
* `DashMap` becomes an association list `List (K × V)` with lookup, replacing
  insert, and remove; keys stay unique along reachable states.
* `tokio::sync::mpsc::channel(32)` (the private outbound queue) becomes a
  `List WsMessage` with capacity 32; `try_send` fails exactly when the queue
  already holds 32 messages.
* `AtomicU64` counters become `Nat` (only increments and one guarded decrement
  occur, so 64-bit wraparound is unreachable on the paths modelled here).
* `chrono` timestamps become `Int` seconds; `signed_duration_since(ts).num_seconds()`
  becomes integer subtraction `now - ts`.
* `f64 reliability_score` carries no arithmetic on any verified path, so it is
  modelled as an `Int`-valued opaque payload slot.
* `Uuid` connection ids become `Nat`; freshness of `Uuid::new_v4` is expressed
  as a validity condition on event traces.
-/

/-- PaymentRecord from crate models, as used by the websocket layer. -/
structure PaymentRecord where
  id : String
  transaction_hash : String
  source_account : String
  destination_account : String
  asset_type : String
  asset_code : Option String
  asset_issuer : Option String
  amount : String
  created_at : String
deriving DecidableEq

/-- AnchorStatus from crate models (Green, Yellow, Red). -/
inductive AnchorStatus where
  | green
  | yellow
  | red
deriving DecidableEq

/-- AnchorMetrics from crate models, as consumed by broadcast_anchor_status. -/
structure AnchorMetrics where
  reliability_score : Int
  status : AnchorStatus
deriving DecidableEq

/-- One corridor metric record returned by the storage read
(fields used by publish_corridor_updates). -/
structure CorridorMetric where
  corridor_key : String
  asset_a_code : String
  asset_a_issuer : String
  asset_b_code : String
  asset_b_issuer : String
deriving DecidableEq

/-- WsMessage (websocket.rs lines 119-162): the tagged wire envelope. -/
inductive WsMessage where
  | snapshotUpdate (snapshot_id : String) (epoch : Int) (timestamp : String) (hash : String)
  | corridorUpdate (corridor_key asset_a_code asset_a_issuer asset_b_code asset_b_issuer : String)
  | anchorUpdate (anchor_id name : String) (reliability_score : Int) (status : String)
  | ping (timestamp : Int)
  | pong (timestamp : Int)
  | connected (connection_id : String)
  | error (message : String)
  | subscribe (channels : List String)
  | unsubscribe (channels : List String)
  | newPayment (payment : PaymentRecord)
  | healthAlert (corridor_id severity message : String)
  | connectionStatus (status : String)
deriving DecidableEq

/-- WsMetrics (websocket.rs lines 36-50); start_time is an Int timestamp. -/
structure WsMetrics where
  total_connections : Nat
  active_connections : Nat
  messages_sent : Nat
  messages_received : Nat
  connection_errors : Nat
  start_time : Int
deriving DecidableEq

/-- WsMetricsSnapshot (websocket.rs lines 110-117). -/
structure WsMetricsSnapshot where
  total_connections : Nat
  active_connections : Nat
  messages_sent : Nat
  messages_received : Nat
  connection_errors : Nat
  uptime_seconds : Int
deriving DecidableEq

/-- WsState (websocket.rs lines 24-33).  `connections` maps a connection id to
the contents of its private bounded outbound queue (the mpsc channel of
capacity 32); `receiverCount` counts the live subscribers of the shared
broadcast channel `tx`; `broadcastBuffer` is the ring of messages accepted by
`tx.send`. -/
structure WsState where
  connections : List (Nat × List WsMessage)
  subscriptions : List (Nat × List String)
  receiverCount : Nat
  broadcastBuffer : List WsMessage
  metrics : WsMetrics
deriving DecidableEq

/-- Association-list lookup (DashMap::get). -/
def alookup {α : Type} : List (Nat × α) → Nat → Option α
  | [], _ => none
  | (k, v) :: rest, k' => if k' = k then some v else alookup rest k'

/-- Association-list remove (DashMap::remove): drops every entry with this key. -/
def aremove {α : Type} (l : List (Nat × α)) (k : Nat) : List (Nat × α) :=
  l.filter (fun p => !(p.1 == k))

/-- Association-list insert (DashMap::insert): replaces any existing entry. -/
def ainsert {α : Type} (l : List (Nat × α)) (k : Nat) (v : α) : List (Nat × α) :=
  (k, v) :: aremove l k

/-- Key list of an association list. -/
def akeys {α : Type} (l : List (Nat × α)) : List Nat :=
  l.map Prod.fst

/-- Boolean character-list prefix test (str::starts_with on the char level). -/
def isPfx : List Char → List Char → Bool
  | [], _ => true
  | _ :: _, [] => false
  | a :: as, b :: bs => a == b && isPfx as bs

/-- Fuel-indexed helper for trimPrefixAll; the fuel bounds the number of
removals, and `s.length` is always enough fuel. -/
def trimPrefixAllAux : Nat → List Char → List Char → List Char
  | 0, _, s => s
  | fuel + 1, pat, s =>
      if !pat.isEmpty && isPfx pat s then
        trimPrefixAllAux fuel pat (s.drop pat.length)
      else s

/-- Rust str::trim_start_matches: repeatedly removes every leading occurrence
of the pattern (not just the first one). -/
def trimPrefixAll (pat s : List Char) : List Char :=
  trimPrefixAllAux s.length pat s

/-- validate_token (websocket.rs lines 196-210).  The WS_AUTH_TOKEN environment
variable is passed in as `env`; when it is unset every token is accepted. -/
def validate_token (env : Option String) (token : String) : Bool :=
  match env with
  | some expected_token => token == expected_token
  | none => true

/-- Result of the upgrade endpoint: a 401 response, or an upgrade that runs
handle_socket for the allocated connection id. -/
inductive UpgradeResult where
  | unauthorized
  | upgraded (id : Nat)
deriving DecidableEq

/-- The connect phase of handle_socket (websocket.rs lines 213-233): bump the
total and active counters, register the private queue under the fresh id,
initialise an empty subscription list, and subscribe a broadcast receiver. -/
def connectStep (st : WsState) (id : Nat) : WsState :=
  { st with
    metrics := { st.metrics with
      total_connections := st.metrics.total_connections + 1
      active_connections := st.metrics.active_connections + 1 }
    connections := ainsert st.connections id []
    subscriptions := ainsert st.subscriptions id []
    receiverCount := st.receiverCount + 1 }

/-- The teardown phase of handle_socket (websocket.rs lines 358-363): remove
both registry entries and decrement the active counter; the broadcast
receiver of this connection is dropped. -/
def disconnectStep (st : WsState) (id : Nat) : WsState :=
  { st with
    connections := aremove st.connections id
    subscriptions := aremove st.subscriptions id
    metrics := { st.metrics with
      active_connections := st.metrics.active_connections - 1 }
    receiverCount := st.receiverCount - 1 }

/-- ws_handler (websocket.rs lines 176-193): if the request carries a token and
validate_token rejects it, reply 401 before anything is created; otherwise
upgrade and run handle_socket, which allocates the fresh id and registers the
connection. -/
def ws_handler (env : Option String) (params_token : Option String)
    (fresh : Nat) (st : WsState) : UpgradeResult × WsState :=
  match params_token with
  | some token =>
      if !validate_token env token then
        (UpgradeResult.unauthorized, st)
      else
        (UpgradeResult.upgraded fresh, connectStep st fresh)
  | none => (UpgradeResult.upgraded fresh, connectStep st fresh)

/-- WsState::new (websocket.rs lines 53-68); the Instant start time is passed in. -/
def WsState.new (start : Int) : WsState :=
  { connections := []
    subscriptions := []
    receiverCount := 0
    broadcastBuffer := []
    metrics :=
      { total_connections := 0
        active_connections := 0
        messages_sent := 0
        messages_received := 0
        connection_errors := 0
        start_time := start } }

/-- WsState::broadcast (websocket.rs lines 71-76): always bump messages_sent,
then tx.send; the send succeeds only when at least one receiver exists,
otherwise the message is dropped (the Err branch merely logs a warning). -/
def WsState.broadcast (st : WsState) (message : WsMessage) : WsState :=
  { st with
    metrics := { st.metrics with messages_sent := st.metrics.messages_sent + 1 }
    broadcastBuffer :=
      if st.receiverCount > 0 then st.broadcastBuffer ++ [message]
      else st.broadcastBuffer }

/-- WsState::connection_count (websocket.rs lines 79-81). -/
def WsState.connection_count (st : WsState) : Nat :=
  st.connections.length

/-- WsState::get_metrics (websocket.rs lines 84-93); `now` plays the role of
Instant::now for the uptime computation. -/
def WsState.get_metrics (st : WsState) (now : Int) : WsMetricsSnapshot :=
  { total_connections := st.metrics.total_connections
    active_connections := st.metrics.active_connections
    messages_sent := st.metrics.messages_sent
    messages_received := st.metrics.messages_received
    connection_errors := st.metrics.connection_errors
    uptime_seconds := now - st.metrics.start_time }

/-- WsState::subscribe (websocket.rs lines 96-98): DashMap::insert, replacing
the whole subscription list of this connection. -/
def WsState.subscribe (st : WsState) (id : Nat) (channels : List String) : WsState :=
  { st with subscriptions := ainsert st.subscriptions id channels }

/-- WsState::unsubscribe (websocket.rs lines 101-105): get_mut then retain,
keeping exactly the channels not named in the argument; a missing entry is a
no-op. -/
def WsState.unsubscribe (st : WsState) (id : Nat) (channels : List String) : WsState :=
  { st with subscriptions :=
      st.subscriptions.map (fun p =>
        if p.1 = id then (p.1, p.2.filter (fun c => !channels.contains c))
        else p) }

/-- mpsc::Sender::try_send on the capacity-32 private queue: push when a slot
is free, fail (returning none, the Err case) when the queue is full. -/
def trySend (queue : List WsMessage) (msg : WsMessage) : Option (List WsMessage) :=
  if queue.length < 32 then some (queue ++ [msg]) else none

/-- The per-channel corridor match inside publish_corridor_updates
(realtime_broadcaster.rs lines 90-98): the channel starts with "corridor:" and
trim_start_matches("corridor:") of it equals the corridor key. -/
def corridorChannelMatch (corridor_key : String) (channel : String) : Bool :=
  isPfx "corridor:".data channel.data &&
    String.mk (trimPrefixAll "corridor:".data channel.data) == corridor_key

/-- Whether publish_corridor_updates sends to a connection
(realtime_broadcaster.rs lines 85-103): no subscription entry or an empty
subscription list sends unconditionally; otherwise some channel must match. -/
def deliverCorridor (subsOpt : Option (List String)) (corridor_key : String) : Bool :=
  match subsOpt with
  | none => true
  | some subs => subs.isEmpty || subs.any (corridorChannelMatch corridor_key)

/-- The per-channel anchor match inside broadcast_anchor_status
(realtime_broadcaster.rs lines 136-141): any channel starting with "anchor:"
matches, because no anchor id is available at this call site. -/
def anchorChannelMatch (channel : String) : Bool :=
  isPfx "anchor:".data channel.data

/-- Whether broadcast_anchor_status sends to a connection
(realtime_broadcaster.rs lines 132-146). -/
def deliverAnchor (subsOpt : Option (List String)) : Bool :=
  match subsOpt with
  | none => true
  | some subs => subs.isEmpty || subs.any anchorChannelMatch

/-- Whether broadcast_payment sends to a connection
(realtime_broadcaster.rs lines 172-186): exact literal "payments". -/
def deliverPayment (subsOpt : Option (List String)) : Bool :=
  match subsOpt with
  | none => true
  | some subs => subs.isEmpty || subs.any (fun channel => channel == "payments")

/-- The CorridorUpdate envelope built from one metric record
(realtime_broadcaster.rs lines 74-80). -/
def corridorMsg (m : CorridorMetric) : WsMessage :=
  WsMessage.corridorUpdate m.corridor_key m.asset_a_code m.asset_a_issuer
    m.asset_b_code m.asset_b_issuer

/-- The AnchorUpdate envelope built by broadcast_anchor_status
(realtime_broadcaster.rs lines 118-127): empty anchor_id and name, the score,
and the status rendered green/yellow/red. -/
def anchorMsg (a : AnchorMetrics) : WsMessage :=
  WsMessage.anchorUpdate "" "" a.reliability_score
    (match a.status with
     | AnchorStatus.green => "green"
     | AnchorStatus.yellow => "yellow"
     | AnchorStatus.red => "red")

/-- The NewPayment envelope built by broadcast_payment
(realtime_broadcaster.rs lines 156-168); the field-by-field clone is the
identity on the record. -/
def paymentMsg (p : PaymentRecord) : WsMessage :=
  WsMessage.newPayment p

/-- Effect of one loop iteration of a publish path on one private queue: when
the delivery predicate held, try_send the message, keeping the queue unchanged
on failure (the Err case only logs); otherwise leave the queue alone. -/
def fanOutEntry (deliver : Bool) (msg : WsMessage) (q : List WsMessage) :
    List WsMessage :=
  if deliver then
    match trySend q msg with
    | some q' => q'
    | none => q
  else q

/-- The fan-out loop shared in shape by the three publish paths: for each
registered connection, when the delivery predicate holds, try_send the message
into its private queue, keep the queue unchanged on failure, and log the
failure (returned as the list of connection ids whose try_send failed; the
error counter is not touched: the Rust code only calls the error log macro). -/
def fanOut (st : WsState) (deliver : Option (List String) → Bool)
    (msg : WsMessage) : WsState × List Nat :=
  ({ st with connections := st.connections.map (fun p =>
      (p.1, fanOutEntry (deliver (alookup st.subscriptions p.1)) msg p.2)) },
   st.connections.filterMap (fun p =>
      if deliver (alookup st.subscriptions p.1) && (trySend p.2 msg).isNone
      then some p.1 else none))

/-- The inner fan-out of publish_corridor_updates
(realtime_broadcaster.rs lines 83-109). -/
def corridorFanOut (st : WsState) (corridor_key : String) (msg : WsMessage) :
    WsState × List Nat :=
  fanOut st (fun subsOpt => deliverCorridor subsOpt corridor_key) msg

/-- broadcast_anchor_status (realtime_broadcaster.rs lines 117-153). -/
def broadcast_anchor_status (st : WsState) (anchor : AnchorMetrics) :
    WsState × List Nat :=
  fanOut st deliverAnchor (anchorMsg anchor)

/-- broadcast_payment (realtime_broadcaster.rs lines 155-193). -/
def broadcast_payment (st : WsState) (payment : PaymentRecord) :
    WsState × List Nat :=
  fanOut st deliverPayment (paymentMsg payment)

/-- The should_send test of publish_corridor_updates
(realtime_broadcaster.rs lines 61-67): send when the ledger has no entry for
the key, or at least 30 seconds elapsed since the recorded dispatch time. -/
def shouldSend (last_sent : List (String × Int)) (now : Int) (key : String) : Bool :=
  match last_sent.lookup key with
  | some ts => 30 ≤ now - ts
  | none => true

/-- Ledger insert (DashMap::insert on last_sent), replacing any entry. -/
def ledgerInsert (last_sent : List (String × Int)) (key : String) (ts : Int) :
    List (String × Int) :=
  (key, ts) :: last_sent.filter (fun p => !(p.1 == key))

/-- The per-record body of the publish_corridor_updates loop
(realtime_broadcaster.rs lines 59-112): skip when rate limited, otherwise
build the CorridorUpdate, fan it out, and record the dispatch time.  The Bool
reports whether the record was dispatched.  The two Utc::now() calls of the
body are modelled by the single instant `now`. -/
def processRecord (now : Int) (m : CorridorMetric)
    (st : WsState) (last_sent : List (String × Int)) :
    WsState × List (String × Int) × Bool :=
  if shouldSend last_sent now m.corridor_key then
    let res := corridorFanOut st m.corridor_key (corridorMsg m)
    (res.1, ledgerInsert last_sent m.corridor_key now, true)
  else
    (st, last_sent, false)

/-- publish_corridor_updates (realtime_broadcaster.rs lines 53-115) on an
already fetched list of corridor metric records. -/
def publish_corridor_updates (now : Int) (metrics : List CorridorMetric)
    (st : WsState) (last_sent : List (String × Int)) :
    WsState × List (String × Int) :=
  match metrics with
  | [] => (st, last_sent)
  | m :: rest =>
      let res := processRecord now m st last_sent
      publish_corridor_updates now rest res.1 res.2.1

/-- The action the recv_task takes on a successfully parsed inbound text
envelope (websocket.rs lines 260-285): Ping gets a Pong reply with the same
timestamp written back, Subscribe and Unsubscribe mutate the registry, Pong is
ignored, anything else is only logged.  The Option is the immediate reply
frame. -/
def recvDispatch (st : WsState) (connection_id : Nat) (msg : WsMessage) :
    WsState × Option WsMessage :=
  match msg with
  | WsMessage.ping timestamp => (st, some (WsMessage.pong timestamp))
  | WsMessage.subscribe channels => (st.subscribe connection_id channels, none)
  | WsMessage.unsubscribe channels => (st.unsubscribe connection_id channels, none)
  | WsMessage.pong _ => (st, none)
  | _ => (st, none)

/-- The three sources the send_task select waits on
(websocket.rs lines 306-344). -/
inductive OutboundSource where
  | heartbeat (now : Int)
  | fromBroadcast (msg : WsMessage)
  | fromPrivate (msg : WsMessage)
deriving DecidableEq

/-- The frame the send_task writes to the client for whichever source fired
(websocket.rs lines 306-344).  The subscription list of the connection is
passed in to state claims about it, but the code never consults it on this
path: each branch serialises and writes unconditionally. -/
def sendTaskStep (_subs : List String) (src : OutboundSource) : WsMessage :=
  match src with
  | OutboundSource.heartbeat now => WsMessage.ping now
  | OutboundSource.fromBroadcast msg => msg
  | OutboundSource.fromPrivate msg => msg

/-- The Subscription Filter as the specification words it (spec section 4.3),
for comparison with the code paths: empty set delivers; otherwise a corridor
update needs an exact subscribed string "corridor:" ++ key, an anchor update
needs a subscription beginning with "anchor:", a payment needs the literal
"payments". -/
def subscriptionFilterSpec (subs : List String) (msg : WsMessage) : Bool :=
  if subs.isEmpty then true
  else
    match msg with
    | WsMessage.corridorUpdate corridor_key _ _ _ _ =>
        subs.contains ("corridor:" ++ corridor_key)
    | WsMessage.anchorUpdate _ _ _ _ => subs.any anchorChannelMatch
    | WsMessage.newPayment _ => subs.contains "payments"
    | _ => true

/-- The corridor clause of the claimed filter, in the exact-match form the
specification states it. -/
def corridorFilterSpec (corridor_key : String) (subs : List String) : Bool :=
  subs.isEmpty || subs.contains ("corridor:" ++ corridor_key)

/-- The events that mutate the shared registry and ledger: a connection
starting handle_socket, the inbound envelopes a connection loop handles, a
teardown, a registry broadcast, a corridor tick, and the two direct publish
entry points. -/
inductive Event where
  | connect (id : Nat)
  | clientSubscribe (id : Nat) (channels : List String)
  | clientUnsubscribe (id : Nat) (channels : List String)
  | clientPing (id : Nat) (ts : Int)
  | disconnect (id : Nat)
  | broadcastEv (msg : WsMessage)
  | corridorTick (now : Int) (records : List CorridorMetric)
  | anchorPublish (a : AnchorMetrics)
  | paymentPublish (p : PaymentRecord)
deriving DecidableEq

/-- The whole mutable shared state: the registry plus the rate-limit ledger of
the RealtimeBroadcaster. -/
structure SysState where
  ws : WsState
  last_sent : List (String × Int)
deriving DecidableEq

/-- One atomic step of the system, dispatching an event to the code it runs. -/
def step (s : SysState) (e : Event) : SysState :=
  match e with
  | Event.connect id => { s with ws := connectStep s.ws id }
  | Event.clientSubscribe id channels =>
      { s with ws := (recvDispatch s.ws id (WsMessage.subscribe channels)).1 }
  | Event.clientUnsubscribe id channels =>
      { s with ws := (recvDispatch s.ws id (WsMessage.unsubscribe channels)).1 }
  | Event.clientPing id ts =>
      { s with ws := (recvDispatch s.ws id (WsMessage.ping ts)).1 }
  | Event.disconnect id => { s with ws := disconnectStep s.ws id }
  | Event.broadcastEv msg => { s with ws := s.ws.broadcast msg }
  | Event.corridorTick now records =>
      let res := publish_corridor_updates now records s.ws s.last_sent
      { ws := res.1, last_sent := res.2 }
  | Event.anchorPublish a => { s with ws := (broadcast_anchor_status s.ws a).1 }
  | Event.paymentPublish p => { s with ws := (broadcast_payment s.ws p).1 }

/-- Feasibility of an event in a given state: a connect uses a fresh id
(Uuid::new_v4 collisions are not defended against and are assumed absent) and
a disconnect tears down a currently registered connection (handle_socket runs
its cleanup exactly once, for the id it inserted, and nothing else removes
it).  Inbound client events are unrestricted: the select over the two join
handles (websocket.rs lines 349-356) drops, and does not abort, the losing
task, so the detached recv task can still execute WsState::subscribe or
WsState::unsubscribe after the teardown removed both registry entries. -/
def eventOk (s : SysState) : Event → Bool
  | Event.connect id => (alookup s.ws.connections id).isNone
  | Event.disconnect id => (alookup s.ws.connections id).isSome
  | _ => true

def validSeq : SysState → List Event → Bool
  | _, [] => true
  | s, e :: es => eventOk s e && validSeq (step s e) es

/-- The initial system state: a fresh WsState and an empty ledger. -/
def initSys (start : Int) : SysState :=
  { ws := WsState.new start, last_sent := [] }

/-- Run a trace. -/
def runTrace (s : SysState) (es : List Event) : SysState :=
  es.foldl step s

/-! ### Association-list lemmas -/

theorem aremove_cons {α : Type} (p : Nat × α) (rest : List (Nat × α)) (k : Nat) :
    aremove (p :: rest) k = if p.1 = k then aremove rest k else p :: aremove rest k := by
  by_cases h : p.1 = k <;> simp [aremove, List.filter_cons, h]

theorem alookup_aremove {α : Type} (l : List (Nat × α)) (k k' : Nat) :
    alookup (aremove l k) k' = if k' = k then none else alookup l k' := by
  induction l with
  | nil => simp [aremove, alookup]
  | cons p rest ih =>
      rw [aremove_cons]
      by_cases hpk : p.1 = k
      · rw [if_pos hpk, ih]
        by_cases hk : k' = k
        · simp [hk]
        · simp [alookup, hk, show ¬k' = p.1 from fun h => hk (h.trans hpk)]
      · rw [if_neg hpk]
        by_cases hkp : k' = p.1
        · simp [alookup, hkp, hpk, show ¬k' = k from fun h => hpk (hkp.symm.trans h)]
        · simp [alookup, hkp, ih]

theorem alookup_ainsert {α : Type} (l : List (Nat × α)) (k k' : Nat) (v : α) :
    alookup (ainsert l k v) k' = if k' = k then some v else alookup l k' := by
  by_cases hk : k' = k
  · simp [ainsert, alookup, hk]
  · simp [ainsert, alookup, hk, alookup_aremove]

theorem alookup_map_val {α : Type} (g : Nat → α → α) (l : List (Nat × α)) (k : Nat) :
    alookup (l.map (fun p => (p.1, g p.1 p.2))) k = (alookup l k).map (g k) := by
  induction l with
  | nil => simp [alookup]
  | cons p rest ih =>
      simp only [List.map, alookup]
      by_cases hk : k = p.1
      · subst hk; simp
      · simp [hk, ih]

theorem akeys_map_val {α : Type} (g : Nat → α → α) (l : List (Nat × α)) :
    akeys (l.map (fun p => (p.1, g p.1 p.2))) = akeys l := by
  induction l with
  | nil => rfl
  | cons p rest ih => simp only [akeys, List.map] at ih ⊢; rw [ih]

theorem akeys_cons {α : Type} (p : Nat × α) (rest : List (Nat × α)) :
    akeys (p :: rest) = p.1 :: akeys rest := rfl

theorem akeys_aremove {α : Type} (l : List (Nat × α)) (k : Nat) :
    akeys (aremove l k) = (akeys l).filter (fun x => !(x == k)) := by
  induction l with
  | nil => rfl
  | cons p rest ih =>
      rw [aremove_cons]
      by_cases hpk : p.1 = k
      · simp [hpk, akeys_cons, List.filter_cons, ih]
      · simp [hpk, akeys_cons, List.filter_cons, ih]

theorem alookup_eq_none_iff {α : Type} (l : List (Nat × α)) (k : Nat) :
    alookup l k = none ↔ k ∉ akeys l := by
  induction l with
  | nil => simp [alookup, akeys]
  | cons p rest ih =>
      simp only [alookup, akeys, List.map, List.mem_cons]
      by_cases hk : k = p.1
      · simp [hk]
      · simp [hk, ih, akeys]

theorem alookup_mem {α : Type} (l : List (Nat × α)) (k : Nat) (v : α)
    (h : alookup l k = some v) : (k, v) ∈ l := by
  induction l with
  | nil => simp [alookup] at h
  | cons p rest ih =>
      obtain ⟨p1, p2⟩ := p
      simp only [alookup] at h
      by_cases hk : k = p1
      · rw [if_pos (show k = (p1, p2).1 from hk)] at h
        injection h with h
        rw [hk, h]
        exact List.mem_cons_self _ _
      · rw [if_neg (show ¬k = (p1, p2).1 from hk)] at h
        exact List.mem_cons_of_mem _ (ih h)

theorem alookup_isSome_iff {α : Type} (l : List (Nat × α)) (k : Nat) :
    (alookup l k).isSome = true ↔ k ∈ akeys l := by
  cases h : alookup l k with
  | none =>
      simp only [Option.isSome_none, Bool.false_eq_true, false_iff]
      exact (alookup_eq_none_iff l k).mp h
  | some v =>
      simp only [Option.isSome_some, true_iff]
      have hm := alookup_mem l k v h
      simp only [akeys]
      exact List.mem_map.mpr ⟨(k, v), hm, rfl⟩

theorem aremove_of_not_mem {α : Type} (l : List (Nat × α)) (k : Nat)
    (h : k ∉ akeys l) : aremove l k = l := by
  induction l with
  | nil => rfl
  | cons p rest ih =>
      rw [akeys_cons, List.mem_cons] at h
      push_neg at h
      rw [aremove_cons, if_neg (fun hh => h.1 hh.symm), ih h.2]

theorem length_aremove_of_mem {α : Type} (l : List (Nat × α)) (k : Nat)
    (hnd : (akeys l).Nodup) (h : k ∈ akeys l) :
    (aremove l k).length + 1 = l.length := by
  induction l with
  | nil => simp [akeys] at h
  | cons p rest ih =>
      rw [akeys_cons, List.nodup_cons] at hnd
      rw [akeys_cons, List.mem_cons] at h
      rw [aremove_cons]
      rcases h with h | h
      · rw [if_pos h.symm, aremove_of_not_mem rest k (h ▸ hnd.1)]
        rfl
      · have hne : ¬p.1 = k := fun hh => hnd.1 (hh ▸ h)
        rw [if_neg hne, List.length_cons, List.length_cons, ih hnd.2 h]

/-! ### Fan-out lemmas -/

theorem fanOut_subscriptions (st : WsState) (d : Option (List String) → Bool)
    (msg : WsMessage) : (fanOut st d msg).1.subscriptions = st.subscriptions := rfl

theorem fanOut_metrics (st : WsState) (d : Option (List String) → Bool)
    (msg : WsMessage) : (fanOut st d msg).1.metrics = st.metrics := rfl

theorem fanOut_receiverCount (st : WsState) (d : Option (List String) → Bool)
    (msg : WsMessage) : (fanOut st d msg).1.receiverCount = st.receiverCount := rfl

theorem fanOut_broadcastBuffer (st : WsState) (d : Option (List String) → Bool)
    (msg : WsMessage) : (fanOut st d msg).1.broadcastBuffer = st.broadcastBuffer := rfl

theorem fanOut_alookup (st : WsState) (d : Option (List String) → Bool)
    (msg : WsMessage) (k : Nat) :
    alookup (fanOut st d msg).1.connections k =
      (alookup st.connections k).map
        (fun q => fanOutEntry (d (alookup st.subscriptions k)) msg q) := by
  exact alookup_map_val
    (fun cid q => fanOutEntry (d (alookup st.subscriptions cid)) msg q)
    st.connections k

theorem fanOut_akeys (st : WsState) (d : Option (List String) → Bool)
    (msg : WsMessage) :
    akeys (fanOut st d msg).1.connections = akeys st.connections := by
  exact akeys_map_val
    (fun cid q => fanOutEntry (d (alookup st.subscriptions cid)) msg q)
    st.connections

theorem fanOut_length (st : WsState) (d : Option (List String) → Bool)
    (msg : WsMessage) :
    (fanOut st d msg).1.connections.length = st.connections.length := by
  simp [fanOut]

theorem fanOutEntry_deliver_space (msg : WsMessage) (q : List WsMessage)
    (h : q.length < 32) : fanOutEntry true msg q = q ++ [msg] := by
  simp [fanOutEntry, trySend, h]

theorem fanOutEntry_deliver_full (msg : WsMessage) (q : List WsMessage)
    (h : 32 ≤ q.length) : fanOutEntry true msg q = q := by
  simp [fanOutEntry, trySend, Nat.not_lt.mpr h]

theorem fanOutEntry_skip (msg : WsMessage) (q : List WsMessage) :
    fanOutEntry false msg q = q := rfl

theorem mem_fanOut_failed (st : WsState) (d : Option (List String) → Bool)
    (msg : WsMessage) (cid : Nat) (q : List WsMessage)
    (hc : alookup st.connections cid = some q)
    (hd : d (alookup st.subscriptions cid) = true)
    (hfull : trySend q msg = none) :
    cid ∈ (fanOut st d msg).2 := by
  have hm := alookup_mem st.connections cid q hc
  simp only [fanOut, List.mem_filterMap]
  refine ⟨(cid, q), hm, ?_⟩
  simp [hd, hfull]

/-- Preservation facts of publish_corridor_updates used by the registry
invariant: the subscriptions map, the connection key list, the connection
count and the metrics are all untouched by a corridor tick. -/
theorem publish_preserves (now : Int) (ms : List CorridorMetric)
    (st : WsState) (ledger : List (String × Int)) :
    (publish_corridor_updates now ms st ledger).1.subscriptions = st.subscriptions
    ∧ akeys (publish_corridor_updates now ms st ledger).1.connections
        = akeys st.connections
    ∧ (publish_corridor_updates now ms st ledger).1.connections.length
        = st.connections.length
    ∧ (publish_corridor_updates now ms st ledger).1.metrics = st.metrics := by
  induction ms generalizing st ledger with
  | nil => simp [publish_corridor_updates]
  | cons m rest ih =>
      simp only [publish_corridor_updates, processRecord]
      by_cases h : shouldSend ledger now m.corridor_key = true
      · simp only [h, if_true]
        have := ih (corridorFanOut st m.corridor_key (corridorMsg m)).1
          (ledgerInsert ledger m.corridor_key now)
        simpa [corridorFanOut, fanOut_subscriptions, fanOut_akeys, fanOut_length,
          fanOut_metrics] using this
      · simp only [Bool.not_eq_true] at h
        simp only [h, Bool.false_eq_true, if_false]
        exact ih st ledger

/-! ### The registry invariant -/

/-- The registry invariant that survives the post-teardown race: every id in
the outbound-handle map is in the subscription map (the converse fails when a
detached recv task subscribes after teardown), both key lists are
duplicate-free, and the active-connection counter equals the number of
registered connections. -/
def RegInv (s : SysState) : Prop :=
  (∀ id, (alookup s.ws.connections id).isSome = true
      → (alookup s.ws.subscriptions id).isSome = true)
  ∧ (akeys s.ws.connections).Nodup
  ∧ (akeys s.ws.subscriptions).Nodup
  ∧ s.ws.metrics.active_connections = s.ws.connections.length

theorem nodup_akeys_ainsert {α : Type} (l : List (Nat × α)) (k : Nat) (v : α)
    (h : (akeys l).Nodup) : (akeys (ainsert l k v)).Nodup := by
  rw [ainsert, akeys_cons, akeys_aremove]
  refine List.Nodup.cons ?_ (h.filter _)
  intro hmem
  have := List.of_mem_filter hmem
  simp at this

theorem nodup_akeys_aremove {α : Type} (l : List (Nat × α)) (k : Nat)
    (h : (akeys l).Nodup) : (akeys (aremove l k)).Nodup := by
  rw [akeys_aremove]
  exact h.filter _

theorem unsubscribe_alookup (st : WsState) (id : Nat) (channels : List String)
    (k : Nat) :
    alookup (st.unsubscribe id channels).subscriptions k
      = (alookup st.subscriptions k).map
          (fun subs => if k = id
            then subs.filter (fun c => !channels.contains c) else subs) := by
  simp only [WsState.unsubscribe]
  rw [show (fun (p : Nat × List String) =>
        if p.1 = id then (p.1, p.2.filter (fun c => !channels.contains c))
        else p)
      = (fun p => (p.1, if p.1 = id
          then p.2.filter (fun c => !channels.contains c) else p.2)) by
    funext p
    by_cases h : p.1 = id <;> simp [h]]
  rw [alookup_map_val (fun k q =>
    if k = id then List.filter (fun c => !channels.contains c) q else q)]

theorem inv_step (s : SysState) (e : Event) (hI : RegInv s)
    (hok : eventOk s e = true) : RegInv (step s e) := by
  obtain ⟨hiff, hndc, hnds, hlen⟩ := hI
  cases e with
  | connect id =>
      simp only [eventOk, Option.isNone_iff_eq_none] at hok
      have hid : id ∉ akeys s.ws.connections := (alookup_eq_none_iff _ _).mp hok
      refine ⟨?_, ?_, ?_, ?_⟩
      · intro id' hmem
        simp only [step, connectStep, alookup_ainsert] at hmem ⊢
        by_cases h : id' = id
        · simp [h]
        · rw [if_neg h] at hmem ⊢
          exact hiff id' hmem
      · exact nodup_akeys_ainsert _ _ _ hndc
      · exact nodup_akeys_ainsert _ _ _ hnds
      · simp only [step, connectStep, ainsert, List.length_cons,
          aremove_of_not_mem s.ws.connections id hid]
        simpa using hlen
  | clientSubscribe id channels =>
      refine ⟨?_, hndc, ?_, hlen⟩
      · intro id' hmem
        have hmem' : (alookup s.ws.connections id').isSome = true := hmem
        simp only [step, recvDispatch, WsState.subscribe, alookup_ainsert]
        by_cases h : id' = id
        · simp [h]
        · rw [if_neg h]
          exact hiff id' hmem'
      · exact nodup_akeys_ainsert _ _ _ hnds
  | clientUnsubscribe id channels =>
      refine ⟨?_, hndc, ?_, hlen⟩
      · intro id' hmem
        have hmem' : (alookup s.ws.connections id').isSome = true := hmem
        have hs := hiff id' hmem'
        simp only [step, recvDispatch]
        rw [unsubscribe_alookup]
        cases h : alookup s.ws.subscriptions id' with
        | none =>
            rw [h] at hs
            simp at hs
        | some subs => simp
      · simp only [step, recvDispatch, WsState.unsubscribe]
        rw [show (fun (p : Nat × List String) =>
              if p.1 = id then (p.1, p.2.filter (fun c => !channels.contains c))
              else p)
            = (fun p => (p.1, if p.1 = id
                then p.2.filter (fun c => !channels.contains c) else p.2)) by
          funext p
          by_cases h : p.1 = id <;> simp [h]]
        rw [akeys_map_val (fun k q =>
          if k = id then List.filter (fun c => !channels.contains c) q else q)]
        exact hnds
  | clientPing id ts => exact ⟨hiff, hndc, hnds, hlen⟩
  | disconnect id =>
      simp only [eventOk, alookup_isSome_iff] at hok
      refine ⟨?_, ?_, ?_, ?_⟩
      · intro id' hmem
        simp only [step, disconnectStep, alookup_aremove] at hmem ⊢
        by_cases h : id' = id
        · rw [if_pos h] at hmem
          simp at hmem
        · rw [if_neg h] at hmem ⊢
          exact hiff id' hmem
      · exact nodup_akeys_aremove _ _ hndc
      · exact nodup_akeys_aremove _ _ hnds
      · simp only [step, disconnectStep]
        have := length_aremove_of_mem s.ws.connections id hndc hok
        omega
  | broadcastEv msg => exact ⟨hiff, hndc, hnds, hlen⟩
  | corridorTick now records =>
      obtain ⟨hs, hk, hl, hm⟩ := publish_preserves now records s.ws s.last_sent
      refine ⟨?_, ?_, ?_, ?_⟩
      · intro id' hmem
        simp only [step] at hmem ⊢
        rw [hs]
        rw [alookup_isSome_iff, hk, ← alookup_isSome_iff] at hmem
        exact hiff id' hmem
      · simp only [step]; rw [hk]; exact hndc
      · simp only [step]; rw [hs]; exact hnds
      · simp only [step]; rw [hl, hm]; exact hlen
  | anchorPublish a =>
      refine ⟨?_, ?_, hnds, ?_⟩
      · intro id' hmem
        simp only [step, broadcast_anchor_status] at hmem ⊢
        rw [fanOut_subscriptions]
        rw [alookup_isSome_iff, fanOut_akeys, ← alookup_isSome_iff] at hmem
        exact hiff id' hmem
      · simp only [step, broadcast_anchor_status]
        rw [fanOut_akeys]
        exact hndc
      · simp only [step, broadcast_anchor_status]
        rw [fanOut_length, fanOut_metrics]
        exact hlen
  | paymentPublish p =>
      refine ⟨?_, ?_, hnds, ?_⟩
      · intro id' hmem
        simp only [step, broadcast_payment] at hmem ⊢
        rw [fanOut_subscriptions]
        rw [alookup_isSome_iff, fanOut_akeys, ← alookup_isSome_iff] at hmem
        exact hiff id' hmem
      · simp only [step, broadcast_payment]
        rw [fanOut_akeys]
        exact hndc
      · simp only [step, broadcast_payment]
        rw [fanOut_length, fanOut_metrics]
        exact hlen

theorem inv_runTrace (es : List Event) (s : SysState) (hI : RegInv s)
    (hv : validSeq s es = true) : RegInv (runTrace s es) := by
  induction es generalizing s with
  | nil => exact hI
  | cons e rest ih =>
      simp only [validSeq, Bool.and_eq_true] at hv
      simp only [runTrace, List.foldl_cons]
      exact ih (step s e) (inv_step s e hI hv.1) hv.2

theorem inv_initSys (start : Int) : RegInv (initSys start) := by
  refine ⟨?_, ?_, ?_, ?_⟩ <;> simp [initSys, WsState.new, alookup, akeys, RegInv]

/-! ### The claims -/

/-- C1: for every upgrade request, if an auth token is configured for the
service and the request token does not match it, the server replies with an
unauthorized response and the registry is returned untouched — no connection
id is allocated and no registry mutation occurs; if no token is configured, or
the request token matches, the upgrade proceeds into the handle_socket
registration. -/
theorem C1_auth_gate (expected given tok : String) (fresh : Nat) (st : WsState)
    (h : given ≠ expected) :
    ws_handler (some expected) (some given) fresh st
        = (UpgradeResult.unauthorized, st)
    ∧ ws_handler none (some tok) fresh st
        = (UpgradeResult.upgraded fresh, connectStep st fresh)
    ∧ ws_handler (some expected) (some expected) fresh st
        = (UpgradeResult.upgraded fresh, connectStep st fresh) := by
  refine ⟨?_, ?_, ?_⟩
  · simp [ws_handler, validate_token, h]
  · simp [ws_handler, validate_token]
  · simp [ws_handler, validate_token]

/-- Witness for C1 at the concrete inputs of the spec example: configured
token "secret", rejected request token "wrong", accepted request token
"secret", and an unconfigured service accepting any token. -/
theorem C1_auth_gate_witness :
    ws_handler (some "secret") (some "wrong") 0 (WsState.new 0)
        = (UpgradeResult.unauthorized, WsState.new 0)
    ∧ ws_handler none (some "anything") 0 (WsState.new 0)
        = (UpgradeResult.upgraded 0, connectStep (WsState.new 0) 0)
    ∧ ws_handler (some "secret") (some "secret") 0 (WsState.new 0)
        = (UpgradeResult.upgraded 0, connectStep (WsState.new 0) 0) :=
  C1_auth_gate "secret" "wrong" "anything" 0 (WsState.new 0) (by decide)

/-- C2: a corridor metric record processed by a corridor tick is dispatched
iff the rate-limit ledger has no entry for its key or at least 30 seconds
elapsed since the recorded dispatch time; a dispatch fans the CorridorUpdate
out and sets the ledger entry for the key to the current time; a suppressed
record leaves both the ledger and the registry unchanged. -/
theorem C2_rate_limit (now : Int) (m : CorridorMetric) (st : WsState)
    (ledger : List (String × Int)) :
    ((processRecord now m st ledger).2.2 = true ↔
        (ledger.lookup m.corridor_key = none ∨
         ∃ ts, ledger.lookup m.corridor_key = some ts ∧ 30 ≤ now - ts))
    ∧ ((processRecord now m st ledger).2.2 = true →
        (processRecord now m st ledger).2.1.lookup m.corridor_key = some now
        ∧ (processRecord now m st ledger).1
            = (corridorFanOut st m.corridor_key (corridorMsg m)).1)
    ∧ ((processRecord now m st ledger).2.2 = false →
        (processRecord now m st ledger).2.1 = ledger
        ∧ (processRecord now m st ledger).1 = st) := by
  cases h : ledger.lookup m.corridor_key with
  | none =>
      simp [processRecord, shouldSend, h, ledgerInsert, List.lookup]
  | some ts =>
      by_cases h30 : 30 ≤ now - ts
      · simp [processRecord, shouldSend, h, h30, ledgerInsert, List.lookup]
      · simp [processRecord, shouldSend, h, h30]

/-- C6: subscribe replaces the whole subscription set of a registered
connection with exactly the given channels — no union with the previous set;
a second Subscribe leaves only the channels of the second call; and the
protocol loop routes an inbound Subscribe envelope to exactly this registry
operation. -/
theorem C6_subscribe_replaces (st : WsState) (id : Nat) (ch1 ch2 : List String)
    (_h : (alookup st.subscriptions id).isSome = true) :
    alookup (st.subscribe id ch1).subscriptions id = some ch1
    ∧ alookup ((st.subscribe id ch1).subscribe id ch2).subscriptions id = some ch2
    ∧ recvDispatch st id (WsMessage.subscribe ch1) = (st.subscribe id ch1, none) := by
  refine ⟨?_, ?_, rfl⟩ <;> simp [WsState.subscribe, alookup_ainsert]

/-- Witness for C6: a freshly connected client subscribes to one list, then to
another; only the second list remains. -/
theorem C6_subscribe_replaces_witness :
    alookup ((connectStep (WsState.new 0) 1).subscribe 1 ["a"]).subscriptions 1
        = some ["a"]
    ∧ alookup (((connectStep (WsState.new 0) 1).subscribe 1 ["a"]).subscribe 1
        ["b"]).subscriptions 1 = some ["b"]
    ∧ recvDispatch (connectStep (WsState.new 0) 1) 1 (WsMessage.subscribe ["a"])
        = ((connectStep (WsState.new 0) 1).subscribe 1 ["a"], none) :=
  C6_subscribe_replaces (connectStep (WsState.new 0) 1) 1 ["a"] ["b"] (by decide)

/-- C7: unsubscribe removes from the current subscription set exactly the
entries that appear in the given channel list and keeps every other entry; in
particular unsubscribing channels the connection never subscribed to leaves
the set unchanged and produces no error. -/
theorem C7_unsubscribe_removes (st : WsState) (id : Nat)
    (channels subs : List String)
    (h : alookup st.subscriptions id = some subs) :
    alookup (st.unsubscribe id channels).subscriptions id
        = some (subs.filter (fun c => !channels.contains c))
    ∧ (∀ c, c ∈ subs.filter (fun c => !channels.contains c)
        ↔ c ∈ subs ∧ c ∉ channels)
    ∧ ((∀ c ∈ channels, c ∉ subs) →
        alookup (st.unsubscribe id channels).subscriptions id = some subs) := by
  refine ⟨?_, ?_, ?_⟩
  · rw [unsubscribe_alookup, h]
    simp
  · intro c
    simp [List.mem_filter]
  · intro hd
    rw [unsubscribe_alookup, h]
    simp only [if_pos rfl, Option.map_some']
    congr 1
    refine List.filter_eq_self.mpr ?_
    intro c hc
    simp only [Bool.not_eq_true', ← Bool.not_eq_true]
    intro hmem
    exact hd c (by simpa using hmem) hc

/-- Witness for C7: a connection subscribed to x and y unsubscribes z, which
it never subscribed to; the set stays x, y. -/
theorem C7_unsubscribe_removes_witness :
    alookup (((connectStep (WsState.new 0) 1).subscribe 1
        ["x", "y"]).unsubscribe 1 ["z"]).subscriptions 1
        = some (["x", "y"].filter (fun c => !(["z"].contains c)))
    ∧ (∀ c, c ∈ ["x", "y"].filter (fun c => !(["z"].contains c))
        ↔ c ∈ ["x", "y"] ∧ c ∉ ["z"])
    ∧ ((∀ c ∈ ["z"], c ∉ ["x", "y"]) →
        alookup (((connectStep (WsState.new 0) 1).subscribe 1
          ["x", "y"]).unsubscribe 1 ["z"]).subscriptions 1 = some ["x", "y"]) :=
  C7_unsubscribe_removes ((connectStep (WsState.new 0) 1).subscribe 1 ["x", "y"])
    1 ["z"] ["x", "y"] (by decide)

/-- C9: an inbound text frame that deserialises to Ping with timestamp ts gets
a Pong reply carrying the same timestamp ts, and the registry state is not
changed by it. -/
theorem C9_ping_pong (st : WsState) (id : Nat) (ts : Int) :
    recvDispatch st id (WsMessage.ping ts) = (st, some (WsMessage.pong ts)) := rfl

/-- C3 counterexample: a connection subscribed only to "payments" should,
per the claim, have a corridor update suppressed on the broadcast path, but
the send task writes every envelope received from the shared broadcast
channel to the client unconditionally. -/
theorem C3_counterexample :
    subscriptionFilterSpec ["payments"]
        (WsMessage.corridorUpdate "USDC-XLM" "USDC" "G1" "XLM" "G2") = false
    ∧ sendTaskStep ["payments"]
        (OutboundSource.fromBroadcast
          (WsMessage.corridorUpdate "USDC-XLM" "USDC" "G1" "XLM" "G2"))
        = WsMessage.corridorUpdate "USDC-XLM" "USDC" "G1" "XLM" "G2" :=
  ⟨by decide, rfl⟩

/-- C3 (amended): the Subscription Filter is not applied on the registry
broadcast path — every envelope received from the shared broadcast channel is
written to the client unconditionally, whatever the connection subscription
set holds; the filter acts only on the direct per-connection publish paths of
the periodic broadcaster. -/
theorem C3_broadcast_path_unfiltered (subs : List String) (msg : WsMessage) :
    sendTaskStep subs (OutboundSource.fromBroadcast msg) = msg := rfl

/-- State with one registered connection whose private outbound queue is
already full (32 pending messages) and an empty subscription set. -/
def fullQueueState : WsState :=
  { connections := [(1, List.replicate 32 (WsMessage.ping 0))]
    subscriptions := [(1, [])]
    receiverCount := 1
    broadcastBuffer := []
    metrics :=
      { total_connections := 1
        active_connections := 1
        messages_sent := 0
        messages_received := 0
        connection_errors := 0
        start_time := 0 } }

/-- C4 counterexample: on a full private queue the try_send fails (the
connection id lands in the logged failure list) yet the connection_errors
counter is left unchanged — the failure is not recorded in the error counter,
only in the log; the queue and registration are also unchanged. -/
theorem C4_counterexample :
    (corridorFanOut fullQueueState "K" (WsMessage.ping 1)).2 = [1]
    ∧ (corridorFanOut fullQueueState "K"
        (WsMessage.ping 1)).1.metrics.connection_errors
        = fullQueueState.metrics.connection_errors
    ∧ alookup (corridorFanOut fullQueueState "K"
        (WsMessage.ping 1)).1.connections 1
        = some (List.replicate 32 (WsMessage.ping 0)) := by
  refine ⟨by decide, rfl, by decide⟩

/-- C4 (amended): on any fan-out path, a delivery attempt to a matching
connection whose private queue is full fails without affecting anything but
the log: the failure is logged (the connection id is reported), the metrics —
the connection_errors counter included — are unchanged, the event is dropped
for that connection only while every other matching connection with queue
space still receives it, and the connection stays registered with its queue
intact. -/
theorem C4_full_queue_drop (st : WsState) (d : Option (List String) → Bool)
    (msg : WsMessage) (cid : Nat) (q : List WsMessage)
    (hc : alookup st.connections cid = some q)
    (hd : d (alookup st.subscriptions cid) = true)
    (hfull : 32 ≤ q.length) :
    cid ∈ (fanOut st d msg).2
    ∧ alookup (fanOut st d msg).1.connections cid = some q
    ∧ (fanOut st d msg).1.metrics = st.metrics
    ∧ (∀ cid' q', cid' ≠ cid → alookup st.connections cid' = some q' →
        d (alookup st.subscriptions cid') = true → q'.length < 32 →
        alookup (fanOut st d msg).1.connections cid' = some (q' ++ [msg])) := by
  refine ⟨?_, ?_, rfl, ?_⟩
  · exact mem_fanOut_failed st d msg cid q hc hd
      (by simp [trySend, Nat.not_lt.mpr hfull])
  · rw [fanOut_alookup, hc]
    simp [hd, fanOutEntry_deliver_full msg q hfull]
  · intro cid' q' hne hc' hd' hq'
    rw [fanOut_alookup, hc']
    simp [hd', fanOutEntry_deliver_space msg q' hq']

/-- State with connection 1 holding a full queue and connection 2 an empty
queue, both on the firehose default (empty subscription set). -/
def fullAndFreeState : WsState :=
  { connections := [(1, List.replicate 32 (WsMessage.ping 0)), (2, [])]
    subscriptions := [(1, []), (2, [])]
    receiverCount := 2
    broadcastBuffer := []
    metrics :=
      { total_connections := 2
        active_connections := 2
        messages_sent := 0
        messages_received := 0
        connection_errors := 0
        start_time := 0 } }

/-- Witness for the amended C4 on the concrete two-connection state: the full
connection 1 fails and keeps its queue, metrics are untouched, and connection
2 still receives the event. -/
theorem C4_full_queue_drop_witness :
    1 ∈ (fanOut fullAndFreeState
        (fun subsOpt => deliverCorridor subsOpt "K") (WsMessage.ping 1)).2
    ∧ alookup (fanOut fullAndFreeState
        (fun subsOpt => deliverCorridor subsOpt "K")
        (WsMessage.ping 1)).1.connections 1
        = some (List.replicate 32 (WsMessage.ping 0))
    ∧ (fanOut fullAndFreeState
        (fun subsOpt => deliverCorridor subsOpt "K")
        (WsMessage.ping 1)).1.metrics = fullAndFreeState.metrics
    ∧ (∀ cid' q', cid' ≠ 1 →
        alookup fullAndFreeState.connections cid' = some q' →
        deliverCorridor (alookup fullAndFreeState.subscriptions cid') "K" = true →
        q'.length < 32 →
        alookup (fanOut fullAndFreeState
          (fun subsOpt => deliverCorridor subsOpt "K")
          (WsMessage.ping 1)).1.connections cid' = some (q' ++ [WsMessage.ping 1])) :=
  C4_full_queue_drop fullAndFreeState
    (fun subsOpt => deliverCorridor subsOpt "K") (WsMessage.ping 1) 1
    (List.replicate 32 (WsMessage.ping 0)) (by decide) (by decide) (by decide)

/-- Delivery on any fan-out path appends the message to the queue of a
connection with space exactly when the delivery predicate holds for its
subscription entry. -/
theorem fanOut_delivers_iff (st : WsState) (d : Option (List String) → Bool)
    (msg : WsMessage) (cid : Nat) (q : List WsMessage)
    (hc : alookup st.connections cid = some q) (hq : q.length < 32) :
    alookup (fanOut st d msg).1.connections cid = some (q ++ [msg])
      ↔ d (alookup st.subscriptions cid) = true := by
  rw [fanOut_alookup, hc]
  cases hb : d (alookup st.subscriptions cid) with
  | false =>
      simp only [hb, Option.map_some', fanOutEntry_skip, Bool.false_eq_true,
        iff_false, ne_eq, Option.some.injEq]
      intro hcontr
      have := congrArg List.length hcontr
      simp at this
  | true =>
      simp [fanOutEntry_deliver_space msg q hq]

/-- State with one registered connection subscribed to the single channel
"corridor:corridor:X", its private queue empty. -/
def doublePrefixState : WsState :=
  { connections := [(1, [])]
    subscriptions := [(1, ["corridor:corridor:X"])]
    receiverCount := 1
    broadcastBuffer := []
    metrics :=
      { total_connections := 1
        active_connections := 1
        messages_sent := 0
        messages_received := 0
        connection_errors := 0
        start_time := 0 } }

/-- C5 counterexample: for corridor key "corridor:X" the subscription
"corridor:corridor:X" is an exact match of the namespaced key
"corridor:" ++ "corridor:X", so the claim says the update is delivered — but
trim_start_matches removes the "corridor:" prefix repeatedly, the remainder
"X" differs from the key, and the code leaves the queue empty. -/
theorem C5_counterexample :
    corridorFilterSpec "corridor:X" ["corridor:corridor:X"] = true
    ∧ alookup (corridorFanOut doublePrefixState "corridor:X"
        (corridorMsg ⟨"corridor:X", "A", "GA", "B", "GB"⟩)).1.connections 1
        = some [] := by
  refine ⟨by decide, by decide⟩

/-- C5 (amended): with a registered connection and queue space, a direct
publish delivers unconditionally when the subscription set is empty, and
otherwise: a corridor update iff some subscribed string starts with
"corridor:" and equals the corridor key after every leading "corridor:"
occurrence is stripped (repeated stripping, not a single exact match); an
anchor update iff some subscribed string starts with "anchor:"; a payment iff
the literal "payments" is subscribed. -/
theorem C5_filter_semantics (st : WsState) (cid : Nat) (q : List WsMessage)
    (subs : List String) (m : CorridorMetric) (a : AnchorMetrics)
    (p : PaymentRecord)
    (hc : alookup st.connections cid = some q)
    (hs : alookup st.subscriptions cid = some subs)
    (hq : q.length < 32) :
    (alookup (corridorFanOut st m.corridor_key (corridorMsg m)).1.connections cid
        = some (q ++ [corridorMsg m])
      ↔ (subs = [] ∨ ∃ c ∈ subs, isPfx "corridor:".data c.data = true
            ∧ String.mk (trimPrefixAll "corridor:".data c.data) = m.corridor_key))
    ∧ (alookup (broadcast_anchor_status st a).1.connections cid
        = some (q ++ [anchorMsg a])
      ↔ (subs = [] ∨ ∃ c ∈ subs, isPfx "anchor:".data c.data = true))
    ∧ (alookup (broadcast_payment st p).1.connections cid
        = some (q ++ [paymentMsg p])
      ↔ (subs = [] ∨ "payments" ∈ subs)) := by
  refine ⟨?_, ?_, ?_⟩
  · rw [corridorFanOut, fanOut_delivers_iff st _ _ cid q hc hq, hs]
    simp [deliverCorridor, corridorChannelMatch, List.any_eq_true,
      List.isEmpty_iff]
  · rw [broadcast_anchor_status, fanOut_delivers_iff st _ _ cid q hc hq, hs]
    simp [deliverAnchor, anchorChannelMatch, List.any_eq_true,
      List.isEmpty_iff]
  · rw [broadcast_payment, fanOut_delivers_iff st _ _ cid q hc hq, hs]
    simp [deliverPayment, List.any_eq_true, List.isEmpty_iff]

/-- State with one registered connection subscribed to a corridor channel, an
anchor channel and the payments channel, its private queue empty. -/
def witnessSubsState : WsState :=
  { connections := [(1, [])]
    subscriptions := [(1, ["corridor:corridor:X", "anchor:a1", "payments"])]
    receiverCount := 1
    broadcastBuffer := []
    metrics :=
      { total_connections := 1
        active_connections := 1
        messages_sent := 0
        messages_received := 0
        connection_errors := 0
        start_time := 0 } }

/-- A concrete payment record. -/
def witnessPayment : PaymentRecord :=
  { id := "p1"
    transaction_hash := "h1"
    source_account := "GS"
    destination_account := "GD"
    asset_type := "native"
    asset_code := none
    asset_issuer := none
    amount := "1.0"
    created_at := "2024-01-01" }

/-- Witness for the amended C5: a connection subscribed to
"corridor:corridor:X", "anchor:a1" and "payments" receives the corridor
update for key "X" (the repeatedly stripped remainder), the anchor update and
the payment. -/
theorem C5_filter_semantics_witness :
    (alookup (corridorFanOut witnessSubsState "X"
        (corridorMsg ⟨"X", "A", "GA", "B", "GB"⟩)).1.connections 1
        = some ([] ++ [corridorMsg ⟨"X", "A", "GA", "B", "GB"⟩])
      ↔ (["corridor:corridor:X", "anchor:a1", "payments"] = ([] : List String)
          ∨ ∃ c ∈ ["corridor:corridor:X", "anchor:a1", "payments"],
              isPfx "corridor:".data c.data = true
              ∧ String.mk (trimPrefixAll "corridor:".data c.data) = "X"))
    ∧ (alookup (broadcast_anchor_status witnessSubsState
          ⟨95, AnchorStatus.green⟩).1.connections 1
        = some ([] ++ [anchorMsg ⟨95, AnchorStatus.green⟩])
      ↔ (["corridor:corridor:X", "anchor:a1", "payments"] = ([] : List String)
          ∨ ∃ c ∈ ["corridor:corridor:X", "anchor:a1", "payments"],
              isPfx "anchor:".data c.data = true))
    ∧ (alookup (broadcast_payment witnessSubsState witnessPayment).1.connections 1
        = some ([] ++ [paymentMsg witnessPayment])
      ↔ (["corridor:corridor:X", "anchor:a1", "payments"] = ([] : List String)
          ∨ "payments" ∈ ["corridor:corridor:X", "anchor:a1", "payments"])) :=
  C5_filter_semantics witnessSubsState 1 []
    ["corridor:corridor:X", "anchor:a1", "payments"]
    ⟨"X", "A", "GA", "B", "GB"⟩ ⟨95, AnchorStatus.green⟩ witnessPayment
    (by decide) (by decide) (by decide)

/-- C8 counterexample: the select over the two join handles
(websocket.rs lines 349-356) drops, and does not abort, the losing task, so
the detached recv task of a torn-down connection can still process an inbound
Subscribe and call WsState::subscribe.  The trace connect 1, teardown of 1,
late Subscribe from 1 is therefore reachable in the program, and it leaves a
subscription-map entry for id 1 while the outbound-handle map has none — the
claimed iff invariant fails in a reachable registry state. -/
theorem C8_counterexample :
    validSeq (initSys 0)
        [Event.connect 1, Event.disconnect 1,
         Event.clientSubscribe 1 ["corridor:USDC-XLM"]] = true
    ∧ alookup (runTrace (initSys 0)
        [Event.connect 1, Event.disconnect 1,
         Event.clientSubscribe 1 ["corridor:USDC-XLM"]]).ws.connections 1 = none
    ∧ alookup (runTrace (initSys 0)
        [Event.connect 1, Event.disconnect 1,
         Event.clientSubscribe 1 ["corridor:USDC-XLM"]]).ws.subscriptions 1
        = some ["corridor:USDC-XLM"] :=
  ⟨by decide, by decide, by decide⟩

/-- C8 (amended): in every reachable registry state — connects use fresh ids,
teardowns hit registered connections, and the inbound client events are
unrestricted, so a Subscribe may arrive from a detached recv task after its
teardown — a connection id present in the outbound-handle map is also present
in the subscription map (the converse direction fails, see the
counterexample); and immediately after a registered connection is torn down,
active_connections has been decremented by exactly one and the id is absent
from both maps. -/
theorem C8_registry_lifecycle (start : Int) (es : List Event) (id : Nat)
    (hv : validSeq (initSys start) es = true) :
    ((alookup (runTrace (initSys start) es).ws.connections id).isSome = true
      → (alookup (runTrace (initSys start) es).ws.subscriptions id).isSome = true)
    ∧ ((alookup (runTrace (initSys start) es).ws.connections id).isSome = true →
        (step (runTrace (initSys start) es)
            (Event.disconnect id)).ws.metrics.active_connections + 1
          = (runTrace (initSys start) es).ws.metrics.active_connections
        ∧ alookup (step (runTrace (initSys start) es)
            (Event.disconnect id)).ws.connections id = none
        ∧ alookup (step (runTrace (initSys start) es)
            (Event.disconnect id)).ws.subscriptions id = none) := by
  obtain ⟨hsub, hndc, hnds, hlen⟩ :=
    inv_runTrace es (initSys start) (inv_initSys start) hv
  refine ⟨hsub id, ?_⟩
  intro hmem
  have hk : id ∈ akeys (runTrace (initSys start) es).ws.connections :=
    (alookup_isSome_iff _ _).mp hmem
  refine ⟨?_, ?_, ?_⟩
  · simp only [step, disconnectStep]
    have hrm := length_aremove_of_mem
      (runTrace (initSys start) es).ws.connections id hndc hk
    omega
  · simp [step, disconnectStep, alookup_aremove]
  · simp [step, disconnectStep, alookup_aremove]

/-- Witness for the amended C8 on a trace that connects id 7, lets it
subscribe, and also carries the racy late Subscribe of the already torn-down
id 3: id 7 is in both maps, and its teardown brings active_connections back
down with 7 gone from both maps. -/
theorem C8_registry_lifecycle_witness :
    ((alookup (runTrace (initSys 0)
        [Event.connect 3, Event.disconnect 3, Event.clientSubscribe 3 ["x"],
         Event.connect 7, Event.clientSubscribe 7 ["payments"]]).ws.connections
        7).isSome = true
      → (alookup (runTrace (initSys 0)
          [Event.connect 3, Event.disconnect 3, Event.clientSubscribe 3 ["x"],
           Event.connect 7, Event.clientSubscribe 7 ["payments"]]).ws.subscriptions
          7).isSome = true)
    ∧ ((alookup (runTrace (initSys 0)
          [Event.connect 3, Event.disconnect 3, Event.clientSubscribe 3 ["x"],
           Event.connect 7, Event.clientSubscribe 7 ["payments"]]).ws.connections
          7).isSome = true →
        (step (runTrace (initSys 0)
            [Event.connect 3, Event.disconnect 3, Event.clientSubscribe 3 ["x"],
             Event.connect 7, Event.clientSubscribe 7 ["payments"]])
            (Event.disconnect 7)).ws.metrics.active_connections + 1
          = (runTrace (initSys 0)
              [Event.connect 3, Event.disconnect 3, Event.clientSubscribe 3 ["x"],
               Event.connect 7, Event.clientSubscribe 7 ["payments"]]
              ).ws.metrics.active_connections
        ∧ alookup (step (runTrace (initSys 0)
            [Event.connect 3, Event.disconnect 3, Event.clientSubscribe 3 ["x"],
             Event.connect 7, Event.clientSubscribe 7 ["payments"]])
            (Event.disconnect 7)).ws.connections 7 = none
        ∧ alookup (step (runTrace (initSys 0)
            [Event.connect 3, Event.disconnect 3, Event.clientSubscribe 3 ["x"],
             Event.connect 7, Event.clientSubscribe 7 ["payments"]])
            (Event.disconnect 7)).ws.subscriptions 7 = none) :=
  C8_registry_lifecycle 0
    [Event.connect 3, Event.disconnect 3, Event.clientSubscribe 3 ["x"],
     Event.connect 7, Event.clientSubscribe 7 ["payments"]]
    7 (by decide)

/-- C10: every call to the registry broadcast operation increments
messages_sent by exactly one, also when no broadcast receiver exists and the
channel send fails (the message is then dropped); the per-connection try_send
paths — corridor fan-out within a tick, anchor publish, payment publish —
never change messages_sent; and the metrics snapshot reports the counter
itself, so messages_sent counts broadcast invocations, not frames delivered
to clients. -/
theorem C10_messages_sent_counts_broadcasts (st : WsState) (msg : WsMessage)
    (key : String) (a : AnchorMetrics) (p : PaymentRecord)
    (ms : List CorridorMetric) (now : Int) (ledger : List (String × Int)) :
    (st.broadcast msg).metrics.messages_sent = st.metrics.messages_sent + 1
    ∧ (st.receiverCount = 0 →
        (st.broadcast msg).broadcastBuffer = st.broadcastBuffer
        ∧ (st.broadcast msg).metrics.messages_sent = st.metrics.messages_sent + 1)
    ∧ (corridorFanOut st key msg).1.metrics.messages_sent
        = st.metrics.messages_sent
    ∧ (broadcast_anchor_status st a).1.metrics.messages_sent
        = st.metrics.messages_sent
    ∧ (broadcast_payment st p).1.metrics.messages_sent
        = st.metrics.messages_sent
    ∧ (publish_corridor_updates now ms st ledger).1.metrics.messages_sent
        = st.metrics.messages_sent
    ∧ (st.get_metrics now).messages_sent = st.metrics.messages_sent := by
  refine ⟨rfl, ?_, rfl, rfl, rfl, ?_, rfl⟩
  · intro h0
    constructor
    · simp [WsState.broadcast, h0]
    · rfl
  · have := (publish_preserves now ms st ledger).2.2.2
    rw [this]
